import Mathlib

/-!
Verification of the retrieval-augmented answer pipeline of the rag-ui
backends (src/backend/app.py, src/backend/flask_main.py and
src/backend/services/azure_services.py), as a shallow embedding in Lean.

Python strings become Lean String, Python dicts become association lists
(insertion-ordered, as Python dicts are), missing dict keys become Option,
Python floats that are only stored (never computed with) become Rat, and
fallible vendor calls (Azure Search, Azure OpenAI) become Except-valued
parameters supplied by the caller.  Wall-clock fields (processing_time)
are not modelled.  Single-quote characters are written via Char.ofNat 39,
mirroring chr(39) in the Python source itself.
-/

/-- The single-quote character, as the Python source builds it: chr(39). -/
def sqc : String := String.singleton (Char.ofNat 39)

/-- The double-quote character, used in the context block headers. -/
def dqc : String := String.singleton (Char.ofNat 34)

/-- Python str.strip(): drop leading and trailing whitespace, spelled over
the character list so that it evaluates by kernel reduction. -/
def pyStrip (s : String) : String :=
  ⟨((s.data.dropWhile Char.isWhitespace).reverse.dropWhile Char.isWhitespace).reverse⟩

/-- Python slicing s[:n]: the first n characters. -/
def pyTake (s : String) (n : Nat) : String := ⟨s.data.take n⟩

/-! ## Filter compiler of src/backend/app.py (chat endpoint, lines 104-125) -/

/-- The field_mapping dict of app.py chat: frontend filter names to Azure
AI Search field names. -/
def appFieldMapping : List (String × String) :=
  [("authors", "author"),
   ("file_type", "documentType"),
   ("file_types", "data_product_type"),
   ("content_type", "documentType"),
   ("extension", "extension"),
   ("language", "language"),
   ("topic", "topic"),
   ("business_unit", "owner_business_unit"),
   ("owner_business", "owner_business"),
   ("user_group", "user_group")]

/-- field_mapping.get(key, key): translate a frontend key, unknown keys
fall through to themselves. -/
def appMapField (key : String) : String :=
  (appFieldMapping.lookup key).getD key

/-- The per-entry guard of app.py: `if value and str(value).strip()` for a
scalar string value, i.e. the value is nonempty and not whitespace-only. -/
def appValueKept (v : String) : Bool :=
  v ≠ "" && pyStrip v ≠ ""

/-- The filter-string builder of app.py chat (lines 119-125): one
`field eq 'value'` clause per kept entry, joined with " and "; None when
no clause survives.  The value is interpolated verbatim (no escaping). -/
def appBuildFilter (filters : List (String × String)) : Option String :=
  let conds := filters.filterMap (fun kv =>
    if appValueKept kv.2 then
      some (appMapField kv.1 ++ " eq " ++ sqc ++ kv.2 ++ sqc)
    else none)
  if conds.isEmpty then none else some (String.intercalate " and " conds)

/-! ## Filter compiler of azure_services.py (build_filter_string, lines 51-87) -/

/-- Escape a value by doubling single quotes, as
value.replace(chr(39), chr(39) + chr(39)) does. -/
def escSq (s : String) : String :=
  ⟨s.data.flatMap (fun c =>
    if c = Char.ofNat 39 then [Char.ofNat 39, Char.ofNat 39] else [c])⟩

/-- The date_range dict of build_filter_string; stop models the end key
(end is a Lean keyword).  A missing or empty-string entry is falsy. -/
structure DateRange where
  start : Option String
  stop : Option String
deriving DecidableEq

/-- The filters dict consumed by AzureSearchService.build_filter_string.
The four recognized keys are explicit fields; extra holds every other
key/value pair of the dict, which the function never reads. -/
structure AzureFilters where
  authors : List String
  categories : List String
  dateRange : Option DateRange
  documentIds : List String
  extra : List (String × String)
deriving DecidableEq

/-- Truthiness of a Python dict entry holding an optional string: present
and nonempty. -/
def optTruthy (o : Option String) : Bool :=
  match o with
  | some s => s ≠ ""
  | none => false

/-- An OR-group of equality clauses over one index field, parenthesized,
as build_filter_string emits for its list-valued filters. -/
def orGroup (field : String) (values : List String) : String :=
  "(" ++ String.intercalate " or "
    (values.map (fun v => field ++ " eq " ++ sqc ++ escSq v ++ sqc)) ++ ")"

/-- AzureSearchService.build_filter_string: handles exactly the keys
authors, categories, date_range and document_ids, joins the clauses with
" and ", and returns the empty string when nothing applies.  The extra
entries are never consulted. -/
def azureBuildFilterString (f : AzureFilters) : String :=
  let cl1 : List String :=
    if f.authors.isEmpty then [] else [orGroup "metadata_author" f.authors]
  let cl2 : List String :=
    if f.categories.isEmpty then []
    else [orGroup "metadata_storage_content_type" f.categories]
  let cl3 : List String :=
    match f.dateRange with
    | none => []
    | some dr =>
      (if optTruthy dr.start then
        ["metadata_storage_last_modified ge " ++ dr.start.getD "" ++ "T00:00:00Z"]
      else []) ++
      (if optTruthy dr.stop then
        ["metadata_storage_last_modified le " ++ dr.stop.getD "" ++ "T23:59:59Z"]
      else [])
  let cl4 : List String :=
    if f.documentIds.isEmpty then []
    else [orGroup "metadata_storage_path" f.documentIds]
  String.intercalate " and " (cl1 ++ cl2 ++ cl3 ++ cl4)

/-! ## Search and chat pipeline of src/backend/app.py (chat endpoint) -/

/-- The arguments of one search_client.search call as app.py builds them:
search text, whether a vector query is attached, the select list ([] when
absent), the top limit and the optional filter string. -/
structure SearchArgs where
  searchText : String
  hasVector : Bool
  select : List String
  top : Nat
  filter : Option String
deriving DecidableEq

/-- The select list that app.py chat passes on both the primary and the
fallback search request. -/
def appSelectFields : List String :=
  ["parent_id", "title", "chunk_id", "chunk", "documentType", "author",
   "Documentid", "document_title", "language", "topic", "summary", "keywords",
   "element", "entities", "user_group", "extension", "data_product_id",
   "data_product_name", "data_product_type", "data_product_description",
   "owner_business_unit", "owner_business", "owner_technical", "owner_group",
   "storage_location", "version", "creation_date", "update_date"]

/-- One search hit as app.py reads it through result.get(field, default):
each field is Option-valued, none meaning the key is absent. -/
structure AppHit where
  chunk : Option String
  title : Option String
  documentTitle : Option String
  author : Option String
  documentType : Option String
  language : Option String
  topic : Option String
  dataProductType : Option String
  ownerBusiness : Option String
  userGroup : Option String
  extension : Option String
  documentid : Option String
  parentId : Option String
  chunkId : Option String
  creationDate : Option String
  updateDate : Option String
deriving DecidableEq

/-- One entry of the sources list that app.py chat returns. -/
structure AppSource where
  title : String
  author : String
  documentTitle : String
  documentType : String
  language : String
  topic : String
  dataProductType : String
  ownerBusiness : String
  userGroup : String
  extension : String
  documentId : String
  chunkId : String
  creationDate : String
  updateDate : String
deriving DecidableEq

/-- The source entry app.py builds from one hit, with the nested
result.get defaults of lines 175-190. -/
def mkAppSource (r : AppHit) : AppSource :=
  { title := r.title.getD (r.documentTitle.getD "N/A")
  , author := r.author.getD "N/A"
  , documentTitle := r.documentTitle.getD (r.title.getD "N/A")
  , documentType := r.documentType.getD "N/A"
  , language := r.language.getD "N/A"
  , topic := r.topic.getD "N/A"
  , dataProductType := r.dataProductType.getD "N/A"
  , ownerBusiness := r.ownerBusiness.getD "N/A"
  , userGroup := r.userGroup.getD "N/A"
  , extension := r.extension.getD "N/A"
  , documentId := r.documentid.getD (r.parentId.getD "N/A")
  , chunkId := r.chunkId.getD "N/A"
  , creationDate := r.creationDate.getD "N/A"
  , updateDate := r.updateDate.getD "N/A" }

/-- retrieved_context of app.py chat: the chunk of every hit followed by a
newline, accumulated in order. -/
def appContext (hits : List AppHit) : String :=
  hits.foldl (fun acc r => acc ++ r.chunk.getD "" ++ "\n") ""

/-- The canned no-results answer of app.py chat (line 196). -/
def appCannedMsg : String :=
  "I couldn" ++ sqc ++ "t find any relevant information in the documents " ++
  "with the applied filters. Please try adjusting your query or filters."

/-- The fixed system prompt of app.py chat (lines 202-206). -/
def appSystemPrompt : String :=
  "You are a helpful AI assistant. Answer the user" ++ sqc ++ "s question " ++
  "based ONLY on the context provided below. If the answer is not in the " ++
  "context, say " ++ sqc ++ "I don" ++ sqc ++ "t have enough information " ++
  "in the provided documents to answer that." ++ sqc ++ " Do not make up " ++
  "information. Provide clear, concise answers."

/-- The augmented user prompt of app.py chat (line 207). -/
def appAugmented (context query : String) : String :=
  "CONTEXT FROM DOCUMENTS:\n" ++ context ++ "\n\nQUESTION:\n" ++ query

/-- The JSON body of a chat request: the query key (absent when not sent)
and the filters dict, restricted to scalar string values. -/
structure ChatBody where
  query : Option String
  filters : List (String × String)

/-- The flattened HTTP outcome of the chat endpoint: status code, answer
or error text, sources, result_count and the filters_applied echo (none
on paths whose JSON has no such key or a null value). -/
structure ChatOutcome where
  status : Nat
  answer : Option String
  error : Option String
  sources : List AppSource
  resultCount : Nat
  filtersApplied : Option String
deriving DecidableEq

/-- One run of app.py chat: the HTTP outcome, the log of search requests
issued to the index (in order), and how many generation calls were made. -/
structure ChatRun where
  out : ChatOutcome
  searchLog : List SearchArgs
  genCalls : Nat
deriving DecidableEq

/-- The primary (hybrid) search request of app.py chat: vector query
attached, the fixed select list, top 5 and the compiled filter. -/
def appPrimaryArgs (q : String) (filters : List (String × String)) : SearchArgs :=
  ⟨q, true, appSelectFields, 5, appBuildFilter filters⟩

/-- The fallback search request of app.py chat after a primary failure:
identical except that no vector query is attached. -/
def appFallbackArgs (q : String) (filters : List (String × String)) : SearchArgs :=
  ⟨q, false, appSelectFields, 5, appBuildFilter filters⟩

/-- Result processing and generation of app.py chat (lines 166-226), run
on the hits of whichever search attempt succeeded.  gen receives the
system prompt and the augmented user prompt. -/
def appChatProceed (q : String) (filters : List (String × String))
    (gen : String → String → Except String String)
    (hits : List AppHit) (log : List SearchArgs) : ChatRun :=
  let context := appContext hits
  if pyStrip context = "" then
    ⟨⟨200, some appCannedMsg, none, [], 0, none⟩, log, 0⟩
  else
    match gen appSystemPrompt (appAugmented context q) with
    | Except.ok ans =>
      ⟨⟨200, some ans, none, hits.map mkAppSource, hits.length,
        appBuildFilter filters⟩, log, 1⟩
    | Except.error e =>
      ⟨⟨500, none, some ("Failed to process chat request: " ++ e), [], 0, none⟩,
        log, 1⟩

/-- The chat endpoint of app.py: availability check, body and query
validation, filter compilation, primary search with one reduced retry,
then context assembly and generation.  backend stands for
search_client.search, gen for the OpenAI completion call. -/
def appChat (clientsOk : Bool) (body : Option ChatBody)
    (backend : SearchArgs → Except String (List AppHit))
    (gen : String → String → Except String String) : ChatRun :=
  if clientsOk = false then
    ⟨⟨503, none, some "Azure services not available. Please check environment variables.",
      [], 0, none⟩, [], 0⟩
  else
    match body with
    | none => ⟨⟨400, none, some "No JSON data provided", [], 0, none⟩, [], 0⟩
    | some data =>
      match data.query with
      | none => ⟨⟨400, none, some "Query parameter is required", [], 0, none⟩, [], 0⟩
      | some q =>
        if q = "" then
          ⟨⟨400, none, some "Query parameter is required", [], 0, none⟩, [], 0⟩
        else
          let primary := appPrimaryArgs q data.filters
          match backend primary with
          | Except.ok hits => appChatProceed q data.filters gen hits [primary]
          | Except.error _ =>
            let fb := appFallbackArgs q data.filters
            match backend fb with
            | Except.ok hits => appChatProceed q data.filters gen hits [primary, fb]
            | Except.error e2 =>
              ⟨⟨500, none, some ("Failed to process chat request: " ++ e2),
                [], 0, none⟩, [primary, fb], 0⟩

/-! ## RAG pipeline of azure_services.py (RAGService.process_query) -/

/-- One mapped document as AzureSearchService._map_document produces it
(all fields already defaulted to strings there). -/
structure AzureDoc where
  id : String
  title : String
  content : String
  author : String
  category : String
  ty : String
  date : String
  size : String
  score : Rat
deriving DecidableEq

/-- One entry of the sources list of RAGService.process_query. -/
structure AzureSource where
  name : String
  author : String
  relevance : Rat
  ty : String
  category : String
  id : String
deriving DecidableEq

/-- The source entry built from one document (lines 412-420). -/
def mkAzureSource (d : AzureDoc) : AzureSource :=
  ⟨d.title, d.author, d.score, d.ty, d.category, d.id⟩

/-- The content-sufficiency test of process_query (line 349):
doc content truthy and more than 50 characters after stripping. -/
def sufficientContent (d : AzureDoc) : Bool :=
  d.content ≠ "" && (pyStrip d.content).length > 50

/-- The per-document excerpt: first 1500 characters, with an ellipsis
marker when the content is longer (line 358). -/
def azPreview (c : String) : String :=
  pyTake c 1500 ++ (if c.length > 1500 then "..." else "")

/-- One labeled context block for a document with sufficient content
(lines 359-365); i is the 1-based position. -/
def azContentBlock (i : Nat) (d : AzureDoc) : String :=
  "[Document " ++ toString i ++ ": " ++ dqc ++ d.title ++ dqc ++ "]\n" ++
  "Author: " ++ d.author ++ "\n" ++
  "Type: " ++ d.ty ++ "\n" ++
  "Category: " ++ d.category ++ "\n" ++
  "Content: " ++ azPreview d.content ++ "\n"

/-- One metadata-only fallback block for a document without accessible
content (lines 373-379). -/
def azMetaBlock (i : Nat) (d : AzureDoc) : String :=
  "[Document " ++ toString i ++ ": " ++ dqc ++ d.title ++ dqc ++ "]\n" ++
  "Author: " ++ d.author ++ "\n" ++
  "Type: " ++ d.ty ++ "\n" ++
  "Category: " ++ d.category ++ "\n" ++
  "Note: Text content not accessible for this " ++ d.ty ++ " file.\n"

/-- Join of per-document blocks with the visible separator, enumerating
from 1 as enumerate(docs, 1) does. -/
def azJoinBlocks (mk : Nat → AzureDoc → String) (docs : List AzureDoc) : String :=
  String.intercalate "\n---\n\n" (docs.enum.map (fun p => mk (p.1 + 1) p.2))

/-- The grounded context of process_query: rich blocks over the documents
with sufficient content when any exist, metadata-only blocks over all
documents otherwise. -/
def azContext (docs : List AzureDoc) : String :=
  let withContent := docs.filter sufficientContent
  if withContent.isEmpty = false then azJoinBlocks azContentBlock withContent
  else azJoinBlocks azMetaBlock docs

/-- The canned no-documents answer of process_query (line 338). -/
def azureCannedMsg : String :=
  "I couldn" ++ sqc ++ "t find any relevant documents for your query. " ++
  "Please try rephrasing your question or adjusting your filters."

/-- The system prompt of process_query with the context interpolated
(lines 385-396). -/
def azureSystemPrompt (context : String) : String :=
  "You are an expert AI assistant for Barclays. Analyze the provided " ++
  "documents and answer the user" ++ sqc ++ "s question comprehensively.\n\n" ++
  "Guidelines:\n" ++
  "- Use specific information from the documents\n" ++
  "- Cite documents when referencing information (e.g., " ++ dqc ++
  "According to Document 1..." ++ dqc ++ ")\n" ++
  "- Provide detailed, professional responses appropriate for a banking environment\n" ++
  "- If information is incomplete, mention what additional details might be helpful\n" ++
  "- Structure your response clearly with headings when appropriate\n" ++
  "- Focus on actionable insights and practical implications\n\n" ++
  "Available Documents:\n" ++ context

/-- What AzureOpenAIService.generate_response returns on success. -/
structure GenOut where
  content : String
  tokens : Nat
  model : String
deriving DecidableEq

/-- The response payload of process_query; processing_time (wall clock)
is not modelled. -/
structure RagResult where
  response : String
  sources : List AzureSource
  confidence : Rat
  tokens : Nat
  model : String
deriving DecidableEq

deriving instance DecidableEq for Except

/-- One run of process_query: the result or the raised error message, and
the log of generation requests (system prompt and user query of each
call, in order). -/
structure RagRun where
  result : Except String RagResult
  genLog : List (String × String)
deriving DecidableEq

/-- RAGService.process_query (lines 315-438).  searchRes is the outcome of
the single search_service.search_documents call (already mapped documents
or the raised error); gen is the OpenAI completion call taking the system
prompt and the user query.  Either failure is caught by the outer except
and re-raised with the RAG prefix. -/
def processQuery (query : String) (searchRes : Except String (List AzureDoc))
    (gen : String → String → Except String GenOut) : RagRun :=
  match searchRes with
  | Except.error e => ⟨Except.error ("RAG processing failed: " ++ e), []⟩
  | Except.ok docs =>
    if docs.isEmpty then
      ⟨Except.ok ⟨azureCannedMsg, [], 1/10, 0, "none"⟩, []⟩
    else
      let withContent := docs.filter sufficientContent
      let confidence : Rat := if withContent.isEmpty = false then 4/5 else 2/5
      let sys := azureSystemPrompt (azContext docs)
      match gen sys query with
      | Except.error e =>
        ⟨Except.error ("RAG processing failed: OpenAI generation failed: " ++ e),
          [(sys, query)]⟩
      | Except.ok g =>
        ⟨Except.ok ⟨g.content, docs.map mkAzureSource, confidence, g.tokens, g.model⟩,
          [(sys, query)]⟩

/-! ## The /api/rag handler of flask_main.py (process_rag_query) -/

/-- The JSON body of an /api/rag request; only the query key matters to
the control flow modelled here (filters, temperature, max_tokens and
top_documents are passed through to the external calls unchanged). -/
structure RagBody where
  query : Option String

/-- The HTTP outcome of /api/rag: status, the RAG payload on success, the
detail message otherwise, how many search calls were issued (process_query
always issues exactly one) and the generation-request log. -/
structure RagHttp where
  status : Nat
  result : Option RagResult
  detail : Option String
  searchCalls : Nat
  genLog : List (String × String)
deriving DecidableEq

/-- flask_main.process_rag_query (lines 132-172): service check, body
check, empty-after-strip query check, then one process_query run. -/
def flaskRag (serviceUp : Bool) (body : Option RagBody)
    (searchRes : Except String (List AzureDoc))
    (gen : String → String → Except String GenOut) : RagHttp :=
  if serviceUp = false then
    ⟨503, none, some "RAG service not initialized", 0, []⟩
  else
    match body with
    | none => ⟨400, none, some "No JSON data provided", 0, []⟩
    | some data =>
      let q := data.query.getD ""
      if pyStrip q = "" then
        ⟨400, none, some "Query cannot be empty", 0, []⟩
      else
        let run := processQuery q searchRes gen
        match run.result with
        | Except.ok r => ⟨200, some r, none, 1, run.genLog⟩
        | Except.error e =>
          ⟨500, none, some ("RAG processing failed: " ++ e), 1, run.genLog⟩

/-! ## Facet endpoints -/

/-- The facet lists of RAGService.get_available_facets: name and count
pairs per category. -/
structure FacetLists where
  authors : List (String × Nat)
  categories : List (String × Nat)
  documentTypes : List (String × Nat)
deriving DecidableEq

/-- RAGService.get_available_facets (lines 440-459): any search failure is
caught and degraded to empty lists; this function never raises. -/
def getAvailableFacets (res : Except String FacetLists) : FacetLists :=
  match res with
  | Except.ok f => f
  | Except.error _ => ⟨[], [], []⟩

/-- The HTTP outcome of the /api/facets handler of flask_main.py. -/
structure FacetsHttp where
  status : Nat
  body : Option FacetLists
  detail : Option String
deriving DecidableEq

/-- flask_main.get_available_facets (lines 174-195): 503 when the RAG
service is not initialized, otherwise 200 with whatever
RAGService.get_available_facets degrades to. -/
def flaskFacets (serviceUp : Bool) (res : Except String FacetLists) : FacetsHttp :=
  if serviceUp = false then
    ⟨503, none, some "RAG service not initialized"⟩
  else
    ⟨200, some (getAvailableFacets res), none⟩

/-- The facet fields that app.py get_filter_options queries one by one. -/
def appFilterFields : List String :=
  ["author", "documentType", "language", "topic", "data_product_type",
   "owner_business_unit", "owner_business", "user_group", "extension"]

/-- One sampled document of the basic-search fallback of
get_filter_options, read through doc.get(field). -/
structure SampleDoc where
  author : Option String
  topic : Option String
  language : Option String
deriving DecidableEq

/-- The flattened body of the /filters endpoint of app.py, one field per
JSON key that any of its three response shapes can carry; lists are empty
when the shape that was returned does not carry the key. -/
structure FiltersOutcome where
  status : Nat
  note : Option String
  errorMsg : Option String
  authors : List String
  fileTypes : List String
  documentTypes : List String
  languages : List String
  topics : List String
  businessUnits : List String
  ownerBusinessVals : List String
  userGroups : List String
  extensions : List String
  dataProductTypes : List String
deriving DecidableEq

/-- Python truthiness collection of the fallback: keep doc.get(f) when it
is present and nonempty. -/
def sampleVal (o : Option String) : Option String :=
  match o with
  | some s => if s = "" then none else some s
  | none => none

/-- sorted(list(set(xs))): distinct values in ascending order. -/
def sortedDedup (xs : List String) : List String :=
  xs.dedup.mergeSort (fun a b => a ≤ b)

/-- The facet values of one field with count > 0, as the success path of
get_filter_options collects them. -/
def facetVals (facetFn : String → Except String (List (String × Nat)))
    (f : String) : List String :=
  match facetFn f with
  | Except.ok ps => (ps.filter (fun p => p.2 > 0)).map (fun p => p.1)
  | Except.error _ => []

/-- app.py get_filter_options (lines 234-319): mock data when the search
client is missing; per-field faceted searches, falling back to a basic
wildcard sample when any facet call fails; mock data with a note when the
fallback search fails too.  Every path returns HTTP 200. -/
def appFilters (clientOk : Bool)
    (facetFn : String → Except String (List (String × Nat)))
    (basic : Except String (List SampleDoc)) : FiltersOutcome :=
  if clientOk = false then
    { status := 200, note := some "Mock data - Azure Search not configured"
    , errorMsg := none
    , authors := ["Sample Author 1", "Sample Author 2"]
    , fileTypes := ["pdf", "docx", "txt"]
    , documentTypes := [], languages := [], topics := [], businessUnits := []
    , ownerBusinessVals := [], userGroups := [], extensions := []
    , dataProductTypes := [] }
  else
    if appFilterFields.all (fun f => match facetFn f with
        | Except.ok _ => true
        | Except.error _ => false) then
      { status := 200, note := none, errorMsg := none
      , authors := facetVals facetFn "author"
      , fileTypes := facetVals facetFn "documentType" ++ facetVals facetFn "data_product_type"
      , documentTypes := facetVals facetFn "documentType"
      , languages := facetVals facetFn "language"
      , topics := facetVals facetFn "topic"
      , businessUnits := facetVals facetFn "owner_business_unit"
      , ownerBusinessVals := facetVals facetFn "owner_business"
      , userGroups := facetVals facetFn "user_group"
      , extensions := facetVals facetFn "extension"
      , dataProductTypes := facetVals facetFn "data_product_type" }
    else
      match basic with
      | Except.ok docs =>
        { status := 200, note := none, errorMsg := none
        , authors := sortedDedup (docs.filterMap (fun d => sampleVal d.author))
        , topics := sortedDedup (docs.filterMap (fun d => sampleVal d.topic))
        , languages := sortedDedup (docs.filterMap (fun d => sampleVal d.language))
        , fileTypes := ["pdf", "docx", "txt"]
        , documentTypes := [], businessUnits := [], ownerBusinessVals := []
        , userGroups := [], extensions := [], dataProductTypes := [] }
      | Except.error e =>
        { status := 200, note := some "Returning mock data due to error"
        , errorMsg := some ("Failed to fetch from Azure Search: " ++ e)
        , authors := ["Sample Author"]
        , fileTypes := ["pdf", "docx"]
        , documentTypes := [], languages := [], topics := [], businessUnits := []
        , ownerBusinessVals := [], userGroups := [], extensions := []
        , dataProductTypes := [] }

/-! ## Helper lemmas -/

/-- Intercalating a one-element list is that element. -/
theorem intercalate_singleton (s a : String) : String.intercalate s [a] = a := rfl

/-- The search log of appChatProceed is exactly the log it was handed. -/
theorem appChatProceed_log (q : String) (fs : List (String × String))
    (gen : String → String → Except String String)
    (hits : List AppHit) (log : List SearchArgs) :
    (appChatProceed q fs gen hits log).searchLog = log := by
  unfold appChatProceed
  by_cases h : pyStrip (appContext hits) = ""
  · simp [h]
  · simp [h]
    cases gen appSystemPrompt (appAugmented (appContext hits) q) <;> rfl

/-! ## Claim C1 -/

/-- C1 counterexample: for the single recognized key topic with the scalar
value O Brien spelled with an embedded single quote, app.py compiles the
predicate with the quote left as is; the claimed quote-doubled predicate is
a different string, so the claim as stated is false. -/
theorem c1_quote_doubling_cex :
    appBuildFilter [("topic", "O" ++ sqc ++ "Brien")]
      = some ("topic eq " ++ sqc ++ "O" ++ sqc ++ "Brien" ++ sqc)
    ∧ ("topic eq " ++ sqc ++ "O" ++ sqc ++ "Brien" ++ sqc)
      ≠ ("topic eq " ++ sqc ++ "O" ++ sqc ++ sqc ++ "Brien" ++ sqc) := by
  exact ⟨rfl, by decide⟩

/-- C1 amended: for every FilterSet containing a single recognized key
with a nonblank scalar value v, the app.py compiled predicate is exactly
field eq quote v quote with the mapped index field name and v interpolated
verbatim, without any quote doubling. -/
theorem c1_single_scalar_predicate (k v f : String)
    (hk : appFieldMapping.lookup k = some f) (hv : appValueKept v = true) :
    appBuildFilter [(k, v)] = some (f ++ " eq " ++ sqc ++ v ++ sqc) := by
  simp [appBuildFilter, appMapField, hk, hv, intercalate_singleton]

/-- C1 witness: the amended theorem applied at the key topic and the value
Risk. -/
theorem c1_single_scalar_predicate_witness :
    appFieldMapping.lookup "topic" = some "topic"
    ∧ appValueKept "Risk" = true
    ∧ appBuildFilter [("topic", "Risk")]
        = some ("topic eq " ++ sqc ++ "Risk" ++ sqc) :=
  ⟨by decide, by decide,
    c1_single_scalar_predicate "topic" "Risk" "topic" (by decide) (by decide)⟩

/-! ## Claim C7 -/

/-- C7 counterexample: azure_services build_filter_string drops the
unrecognized key topic entirely instead of passing it through as a literal
field name: the compiled predicate is empty rather than a topic clause. -/
theorem c7_unknown_key_dropped_cex :
    azureBuildFilterString ⟨[], [], none, [], [("topic", "Risk")]⟩ = ""
    ∧ ("" : String) ≠ ("topic eq " ++ sqc ++ "Risk" ++ sqc) := by
  exact ⟨rfl, by decide⟩

/-- C7 amended: an unknown key passes through with its literal name in the
app.py compiler, while azure_services build_filter_string consults only
its four recognized keys, so every other entry is silently dropped (its
output does not depend on the extra entries at all). -/
theorem c7_unknown_key_passthrough (k v : String)
    (hk : appFieldMapping.lookup k = none) (hv : appValueKept v = true) :
    appBuildFilter [(k, v)] = some (k ++ " eq " ++ sqc ++ v ++ sqc)
    ∧ (∀ af cf dr di extra, azureBuildFilterString ⟨af, cf, dr, di, extra⟩
        = azureBuildFilterString ⟨af, cf, dr, di, []⟩) := by
  constructor
  · simp [appBuildFilter, appMapField, hk, hv, intercalate_singleton]
  · intro af cf dr di extra
    rfl

/-- C7 witness: the amended theorem applied at an unmapped key. -/
theorem c7_unknown_key_passthrough_witness :
    appFieldMapping.lookup "documentType" = none
    ∧ appValueKept "pdf" = true
    ∧ appBuildFilter [("documentType", "pdf")]
        = some ("documentType eq " ++ sqc ++ "pdf" ++ sqc) :=
  ⟨by decide, by decide,
    (c7_unknown_key_passthrough "documentType" "pdf" (by decide) (by decide)).1⟩

/-! ## Claim C8 -/

/-- C8 counterexample: a FilterSet whose only value is the single blank
string inside the authors list is all-blank after trimming, yet
azure_services build_filter_string still emits a predicate for it, so the
claim that such FilterSets compile to no predicate is false. -/
theorem c8_blank_value_cex :
    azureBuildFilterString ⟨[" "], [], none, [], []⟩
      = "(metadata_author eq " ++ sqc ++ " " ++ sqc ++ ")"
    ∧ ("(metadata_author eq " ++ sqc ++ " " ++ sqc ++ ")") ≠ "" := by
  exact ⟨rfl, by decide⟩

/-- C8 amended: the app.py compiler returns the no-filter sentinel None
whenever every scalar value is blank after trimming, and azure_services
build_filter_string returns the empty-string sentinel whenever every
recognized slot is empty or absent (whatever the unread extra entries
hold); both compilers are total functions, so neither throws.  Blank
strings inside the azure list- or range-valued slots, however, still emit
clauses, as the counterexample shows. -/
theorem c8_all_blank_no_predicate :
    (∀ fs : List (String × String), (∀ kv ∈ fs, pyStrip kv.2 = "") →
      appBuildFilter fs = none)
    ∧ (∀ extra, azureBuildFilterString ⟨[], [], none, [], extra⟩ = "")
    ∧ (∀ extra, azureBuildFilterString ⟨[], [], some ⟨some "", none⟩, [], extra⟩ = "") := by
  refine ⟨?_, fun _ => rfl, fun _ => rfl⟩
  intro fs hblank
  have hnil : fs.filterMap (fun kv =>
      if appValueKept kv.2 then
        some (appMapField kv.1 ++ " eq " ++ sqc ++ kv.2 ++ sqc)
      else none) = [] := by
    rw [List.filterMap_eq_nil_iff]
    intro kv hmem
    have hb := hblank kv hmem
    simp [appValueKept, hb]
  simp [appBuildFilter, hnil]

/-- C8 witness: the amended theorem applied to a FilterSet holding one
whitespace-only scalar value. -/
theorem c8_all_blank_no_predicate_witness :
    (∀ kv ∈ [(("topic" : String), ("  " : String))], pyStrip kv.2 = "")
    ∧ appBuildFilter [("topic", "  ")] = none :=
  ⟨by decide, c8_all_blank_no_predicate.1 [("topic", "  ")] (by decide)⟩

/-! ## Claim C5 -/

/-- C5 counterexample: a whitespace-only query is nonempty, so the chat
endpoint of app.py does not return 400 for it: the handler proceeds and
issues a search request (one network call) before anything else can stop
it, so requiring the query to be nonempty after trimming is false there. -/
theorem c5_blank_query_cex :
    (appChat true (some ⟨some " ", []⟩) (fun _ => Except.ok [])
        (fun _ _ => Except.ok "ans")).out.status = 200
    ∧ (appChat true (some ⟨some " ", []⟩) (fun _ => Except.ok [])
        (fun _ _ => Except.ok "ans")).searchLog.length = 1 := by
  exact ⟨rfl, rfl⟩

/-- C5 amended: for every chat or RAG request whose query is missing or
the empty string, both endpoints return HTTP 400 with no search and no
generation call; flask_main additionally rejects queries that are blank
after trimming, but app.py does not (see the counterexample). -/
theorem c5_empty_query_rejected :
    (∀ fs backend gen, appChat true (some ⟨none, fs⟩) backend gen
      = ⟨⟨400, none, some "Query parameter is required", [], 0, none⟩, [], 0⟩)
    ∧ (∀ fs backend gen, appChat true (some ⟨some "", fs⟩) backend gen
      = ⟨⟨400, none, some "Query parameter is required", [], 0, none⟩, [], 0⟩)
    ∧ (∀ q searchRes gen, pyStrip q = "" →
        flaskRag true (some ⟨some q⟩) searchRes gen
          = ⟨400, none, some "Query cannot be empty", 0, []⟩)
    ∧ (∀ searchRes gen, flaskRag true (some ⟨none⟩) searchRes gen
      = ⟨400, none, some "Query cannot be empty", 0, []⟩) := by
  refine ⟨fun fs backend gen => rfl, fun fs backend gen => rfl, ?_, fun searchRes gen => rfl⟩
  intro q searchRes gen hq
  simp [flaskRag, hq]

/-- C5 witness: the amended theorem applied to a concrete whitespace-only
query sent to the flask_main handler. -/
theorem c5_empty_query_rejected_witness :
    pyStrip " " = ""
    ∧ flaskRag true (some ⟨some " "⟩) (Except.ok [])
        (fun _ _ => Except.ok ⟨"a", 0, "m"⟩)
      = ⟨400, none, some "Query cannot be empty", 0, []⟩ :=
  ⟨by decide, c5_empty_query_rejected.2.2.1 " " (Except.ok [])
    (fun _ _ => Except.ok ⟨"a", 0, "m"⟩) (by decide)⟩

/-! ## Claim C6 -/

/-- C6 counterexample: the facets endpoint of flask_main returns HTTP 503,
a 5xx status, when the RAG service is not initialized, so the facet
surface does not always answer 200. -/
theorem c6_flask_facets_503_cex :
    (flaskFacets false (Except.ok ⟨[], [], []⟩)).status = 503
    ∧ (flaskFacets false (Except.ok ⟨[], [], []⟩)).status ≠ 200 := by
  exact ⟨rfl, by decide⟩

/-- C6 amended: the filters endpoint of app.py always returns HTTP 200,
and on total failure of both the facet loop and the fallback search it
returns the static placeholder set annotated with a note field; the
facets endpoint of flask_main returns 200 whenever the RAG service is
initialized (its service-level facet loader swallows search failures and
degrades to empty lists), but returns 503 when the service is not
initialized. -/
theorem c6_facets_never_fail :
    (∀ clientOk facetFn basic, (appFilters clientOk facetFn basic).status = 200)
    ∧ (∀ e1 e2, (appFilters true (fun _ => Except.error e1) (Except.error e2)).note
        = some "Returning mock data due to error")
    ∧ (∀ e1 e2, (appFilters true (fun _ => Except.error e1) (Except.error e2)).authors
        = ["Sample Author"])
    ∧ (∀ res, (flaskFacets true res).status = 200)
    ∧ (∀ e, getAvailableFacets (Except.error e) = ⟨[], [], []⟩) := by
  refine ⟨?_, fun e1 e2 => rfl, fun e1 e2 => rfl, fun res => rfl, fun e => rfl⟩
  intro clientOk facetFn basic
  unfold appFilters
  cases clientOk with
  | false => rfl
  | true =>
    by_cases hall : appFilterFields.all (fun f => match facetFn f with
        | Except.ok _ => true
        | Except.error _ => false)
    · simp [hall]
    · simp [hall]
      cases basic <;> rfl

/-! ## Claim C2 -/

/-- C2: when retrieval succeeds with zero documents, process_query returns
the canned no-documents answer with empty sources, confidence at the 0.1
floor, zero tokens and no model, without any generation call, and the chat
endpoint of app.py likewise returns its canned answer with empty sources,
result_count 0 and no generation call after the single search. -/
theorem c2_zero_documents (q : String) (fs : List (String × String))
    (gen : String → String → Except String GenOut)
    (backend : SearchArgs → Except String (List AppHit))
    (gen2 : String → String → Except String String)
    (hq : q ≠ "")
    (hb : backend (appPrimaryArgs q fs) = Except.ok []) :
    processQuery q (Except.ok []) gen
      = ⟨Except.ok ⟨azureCannedMsg, [], 1/10, 0, "none"⟩, []⟩
    ∧ appChat true (some ⟨some q, fs⟩) backend gen2
      = ⟨⟨200, some appCannedMsg, none, [], 0, none⟩, [appPrimaryArgs q fs], 0⟩ := by
  constructor
  · rfl
  · unfold appChat
    simp [hq, hb]
    rfl

/-- C2 witness: the zero-documents theorem applied at a concrete query
with a backend that matches nothing. -/
theorem c2_zero_documents_witness :
    ("q" ≠ "")
    ∧ ((fun _ => (Except.ok [] : Except String (List AppHit))) (appPrimaryArgs "q" [])
        = (Except.ok [] : Except String (List AppHit)))
    ∧ appChat true (some ⟨some "q", []⟩) (fun _ => Except.ok [])
        (fun _ _ => Except.ok "ans")
      = ⟨⟨200, some appCannedMsg, none, [], 0, none⟩, [appPrimaryArgs "q" []], 0⟩ :=
  ⟨by decide, rfl,
    (c2_zero_documents "q" [] (fun _ _ => Except.ok ⟨"a", 0, "m"⟩)
      (fun _ => Except.ok []) (fun _ _ => Except.ok "ans") (by decide) rfl).2⟩

/-! ## Claim C3 -/

/-- The generation log of process_query: empty exactly when retrieval
returned no documents, otherwise the one call carrying the system prompt
built from the assembled context and the user query. -/
theorem processQuery_genLog (q : String) (docs : List AzureDoc)
    (gen : String → String → Except String GenOut) :
    (processQuery q (Except.ok docs) gen).genLog
      = if docs.isEmpty then []
        else [(azureSystemPrompt (azContext docs), q)] := by
  unfold processQuery
  cases hie : docs.isEmpty
  · simp [hie]
    cases gen (azureSystemPrompt (azContext docs)) q <;> rfl
  · simp [hie]

/-- The content-sufficiency test holds exactly when the stripped content
is longer than 50 characters. -/
theorem sufficient_iff (d : AzureDoc) :
    sufficientContent d = true ↔ 50 < (pyStrip d.content).length := by
  unfold sufficientContent
  simp only [Bool.and_eq_true, decide_eq_true_eq, ne_eq]
  constructor
  · rintro ⟨-, h⟩
    exact h
  · intro h
    refine ⟨?_, h⟩
    intro h0
    rw [h0] at h
    exact absurd h (by decide)

/-- When every document has stripped content of at most 50 characters,
the sufficiency filter keeps nothing. -/
theorem filter_sufficient_eq_nil (docs : List AzureDoc)
    (h : ∀ d ∈ docs, (pyStrip d.content).length ≤ 50) :
    docs.filter sufficientContent = [] := by
  rw [List.filter_eq_nil_iff]
  intro d hd
  rw [Bool.not_eq_true]
  rw [← Bool.not_eq_true] at *
  intro hs
  have := (sufficient_iff d).mp hs
  have := h d hd
  omega

/-- When some document has stripped content longer than 50 characters,
the sufficiency filter keeps something. -/
theorem filter_sufficient_ne_nil (docs : List AzureDoc)
    (h : ∃ d ∈ docs, 50 < (pyStrip d.content).length) :
    docs.filter sufficientContent ≠ [] := by
  obtain ⟨d, hd, hlen⟩ := h
  intro hnil
  have hs : sufficientContent d = true := (sufficient_iff d).mpr hlen
  have hn := List.filter_eq_nil_iff.mp hnil d hd
  simp [hs] at hn

/-- C3: for a nonempty document list in which every stripped content is
shorter than the 50-character threshold, the single generation call is
still made and carries the system prompt built from the metadata-only
blocks over all documents, any normally returned response has the
degraded confidence 0.4, and generation is skipped exactly when the
document list is empty. -/
theorem c3_metadata_only_generation (q : String) (docs : List AzureDoc)
    (gen : String → String → Except String GenOut)
    (hne : docs ≠ [])
    (hshort : ∀ d ∈ docs, (pyStrip d.content).length < 50) :
    (processQuery q (Except.ok docs) gen).genLog
      = [(azureSystemPrompt (azJoinBlocks azMetaBlock docs), q)]
    ∧ (∀ r, (processQuery q (Except.ok docs) gen).result = Except.ok r →
        r.confidence = 2/5)
    ∧ (∀ docs2 : List AzureDoc,
        (processQuery q (Except.ok docs2) gen).genLog = [] ↔ docs2 = []) := by
  have hie : docs.isEmpty = false := by
    cases docs with
    | nil => exact absurd rfl hne
    | cons a l => rfl
  have hfilter : docs.filter sufficientContent = [] :=
    filter_sufficient_eq_nil docs (fun d hd => Nat.le_of_lt (hshort d hd))
  have hctx : azContext docs = azJoinBlocks azMetaBlock docs := by
    unfold azContext
    simp [hfilter]
  refine ⟨?_, ?_, ?_⟩
  · rw [processQuery_genLog, hie, hctx]
    rfl
  · intro r hr
    unfold processQuery at hr
    simp [hie] at hr
    cases hg : gen (azureSystemPrompt (azContext docs)) q with
    | error e =>
      rw [hg] at hr
      simp at hr
    | ok g =>
      rw [hg] at hr
      simp at hr
      have hno : ¬ ∃ x ∈ docs, sufficientContent x = true := by
        rintro ⟨x, hx, hs⟩
        have hn := List.filter_eq_nil_iff.mp hfilter x hx
        simp [hs] at hn
      rw [← hr]
      simp [hno]
  · intro docs2
    rw [processQuery_genLog]
    cases docs2 with
    | nil => simp
    | cons a l => simp

/-- C3 witness: the theorem applied to one concrete document whose content
is shorter than the threshold. -/
theorem c3_metadata_only_generation_witness :
    ([(⟨"id", "T", "short", "A", "C", "PDF", "d", "s", 0⟩ : AzureDoc)] ≠ [])
    ∧ (∀ d ∈ [(⟨"id", "T", "short", "A", "C", "PDF", "d", "s", 0⟩ : AzureDoc)],
        (pyStrip d.content).length < 50)
    ∧ (processQuery "q" (Except.ok [⟨"id", "T", "short", "A", "C", "PDF", "d", "s", 0⟩])
        (fun _ _ => Except.ok ⟨"a", 7, "m"⟩)).genLog
      = [(azureSystemPrompt
            (azJoinBlocks azMetaBlock [⟨"id", "T", "short", "A", "C", "PDF", "d", "s", 0⟩]),
          "q")] :=
  ⟨by decide, by decide,
    (c3_metadata_only_generation "q" [⟨"id", "T", "short", "A", "C", "PDF", "d", "s", 0⟩]
      (fun _ _ => Except.ok ⟨"a", 7, "m"⟩) (by decide) (by decide)).1⟩

/-! ## Claim C4 -/

/-- C4 counterexample: when the primary hybrid search fails, the retry of
app.py chat carries the very same nonempty select list as the primary
request, so the claim that the retry has no field restriction is false. -/
theorem c4_field_restriction_cex :
    ((appChat true (some ⟨some "q", []⟩) (fun _ => Except.error "unsupported")
        (fun _ _ => Except.ok "ans")).searchLog.map (fun a => a.select))
      = [appSelectFields, appSelectFields]
    ∧ appSelectFields ≠ [] := by
  exact ⟨rfl, by decide⟩

/-- C4 amended: on a primary failure exactly one retry is issued as a
reduced request: plain text search with no vector component but the same
field-selection list, the same filter predicate and the same result
limit; at most 2 search calls are ever made, and when the retry succeeds
the pipeline continues on its hits, a retrieval error surfacing (status
500 after both logged attempts) only when the retry fails too. -/
theorem c4_retry_once_reduced (q : String) (fs : List (String × String))
    (backend : SearchArgs → Except String (List AppHit))
    (gen : String → String → Except String String)
    (hq : q ≠ "") :
    (appChat true (some ⟨some q, fs⟩) backend gen).searchLog.length ≤ 2
    ∧ appFallbackArgs q fs = { appPrimaryArgs q fs with hasVector := false }
    ∧ (∀ e hits, backend (appPrimaryArgs q fs) = Except.error e →
        backend (appFallbackArgs q fs) = Except.ok hits →
        appChat true (some ⟨some q, fs⟩) backend gen
          = appChatProceed q fs gen hits [appPrimaryArgs q fs, appFallbackArgs q fs])
    ∧ (∀ e e2, backend (appPrimaryArgs q fs) = Except.error e →
        backend (appFallbackArgs q fs) = Except.error e2 →
        (appChat true (some ⟨some q, fs⟩) backend gen).out.status = 500
        ∧ (appChat true (some ⟨some q, fs⟩) backend gen).searchLog
            = [appPrimaryArgs q fs, appFallbackArgs q fs]) := by
  refine ⟨?_, rfl, ?_, ?_⟩
  · unfold appChat
    simp [hq]
    cases hb : backend (appPrimaryArgs q fs) with
    | ok hits => simp [appChatProceed_log]
    | error e =>
      cases hb2 : backend (appFallbackArgs q fs) with
      | ok hits => simp [appChatProceed_log]
      | error e2 => simp
  · intro e hits hb hb2
    unfold appChat
    simp [hq, hb, hb2]
  · intro e e2 hb hb2
    unfold appChat
    simp [hq, hb, hb2]

/-- C4 witness: the amended theorem applied to a backend that rejects the
hybrid request and accepts the plain one. -/
theorem c4_retry_once_reduced_witness :
    ("q" ≠ "")
    ∧ (appChat true (some ⟨some "q", []⟩)
        (fun a => if a.hasVector then Except.error "unsupported" else Except.ok [])
        (fun _ _ => Except.ok "ans")).searchLog.length ≤ 2 :=
  ⟨by decide, (c4_retry_once_reduced "q" []
      (fun a => if a.hasVector then Except.error "unsupported" else Except.ok [])
      (fun _ _ => Except.ok "ans") (by decide)).1⟩

/-! ## Claim C9 -/

/-- C9: every normally returned response of process_query carries exactly
one source entry per retrieved document, in retrieval order, whatever the
content sufficiency of each document was; the response shaping of app.py
chat likewise returns one source per hit with result_count equal to the
number of hits. -/
theorem c9_sources_per_document (q : String) (docs : List AzureDoc)
    (gen : String → String → Except String GenOut) (r : RagResult)
    (h : (processQuery q (Except.ok docs) gen).result = Except.ok r) :
    r.sources = docs.map mkAzureSource
    ∧ r.sources.length = docs.length
    ∧ (∀ (fs : List (String × String)) (gen2 : String → String → Except String String)
        (hits : List AppHit) (log : List SearchArgs) (ans : String),
        pyStrip (appContext hits) ≠ "" →
        gen2 appSystemPrompt (appAugmented (appContext hits) q) = Except.ok ans →
        (appChatProceed q fs gen2 hits log).out.sources = hits.map mkAppSource
        ∧ (appChatProceed q fs gen2 hits log).out.resultCount = hits.length) := by
  have hs : r.sources = docs.map mkAzureSource := by
    cases docs with
    | nil =>
      have h2 : (processQuery q (Except.ok ([] : List AzureDoc)) gen).result
          = Except.ok (⟨azureCannedMsg, [], 1/10, 0, "none"⟩ : RagResult) := rfl
      rw [h2] at h
      injection h with h3
      rw [← h3]
      simp
    | cons a l =>
      unfold processQuery at h
      simp at h
      cases hg : gen (azureSystemPrompt (azContext (a :: l))) q with
      | error e =>
        rw [hg] at h
        simp at h
      | ok g =>
        rw [hg] at h
        simp at h
        rw [← h]
        simp
  refine ⟨hs, by rw [hs, List.length_map], ?_⟩
  intro fs gen2 hits log ans hctx hgen
  unfold appChatProceed
  simp [hctx, hgen]

/-- C9 witness: the theorem applied to one concrete document whose content
is below the sufficiency threshold, which nevertheless yields one source
entry. -/
theorem c9_sources_per_document_witness :
    ((processQuery "q" (Except.ok [⟨"id", "T", "short", "A", "C", "PDF", "d", "s", 0⟩])
        (fun _ _ => Except.ok ⟨"a", 7, "m"⟩)).result
      = Except.ok (⟨"a", [mkAzureSource ⟨"id", "T", "short", "A", "C", "PDF", "d", "s", 0⟩],
          2/5, 7, "m"⟩ : RagResult))
    ∧ (⟨"a", [mkAzureSource ⟨"id", "T", "short", "A", "C", "PDF", "d", "s", 0⟩],
          2/5, 7, "m"⟩ : RagResult).sources
        = [(⟨"id", "T", "short", "A", "C", "PDF", "d", "s", 0⟩ : AzureDoc)].map mkAzureSource :=
  ⟨rfl, (c9_sources_per_document "q" [⟨"id", "T", "short", "A", "C", "PDF", "d", "s", 0⟩]
      (fun _ _ => Except.ok ⟨"a", 7, "m"⟩) _ rfl).1⟩

/-! ## Claim C10 -/

/-- C10: every normally returned response of process_query has confidence
exactly one of 0.1, 0.4, 0.8: the 0.1 floor when retrieval returned no
documents, the degraded 0.4 when documents exist but none has stripped
content longer than 50 characters, the grounded 0.8 when some document
does, so confidence always lies in the unit interval. -/
theorem c10_confidence_tiers (q : String) (sr : Except String (List AzureDoc))
    (gen : String → String → Except String GenOut) (r : RagResult)
    (h : (processQuery q sr gen).result = Except.ok r) :
    (r.confidence = 1/10 ∨ r.confidence = 2/5 ∨ r.confidence = 4/5)
    ∧ (sr = Except.ok [] → r.confidence = 1/10)
    ∧ (∀ docs, sr = Except.ok docs → docs ≠ [] →
        (∀ d ∈ docs, (pyStrip d.content).length ≤ 50) → r.confidence = 2/5)
    ∧ (∀ docs, sr = Except.ok docs →
        (∃ d ∈ docs, 50 < (pyStrip d.content).length) → r.confidence = 4/5)
    ∧ 0 ≤ r.confidence ∧ r.confidence ≤ 1 := by
  cases sr with
  | error e =>
    unfold processQuery at h
    simp at h
  | ok docs =>
    cases hdn : docs with
    | nil =>
      subst hdn
      have h2 : (processQuery q (Except.ok ([] : List AzureDoc)) gen).result
          = Except.ok (⟨azureCannedMsg, [], 1/10, 0, "none"⟩ : RagResult) := rfl
      rw [h2] at h
      injection h with h3
      rw [← h3]
      refine ⟨Or.inl rfl, fun _ => rfl, ?_, ?_, by norm_num, by norm_num⟩
      · intro docs2 hd2 hne _
        injection hd2 with hd3
        exact absurd hd3.symm hne
      · intro docs2 hd2 hex
        injection hd2 with hd3
        rw [← hd3] at hex
        obtain ⟨d, hd, -⟩ := hex
        exact absurd hd (List.not_mem_nil d)
    | cons a l =>
      subst hdn
      unfold processQuery at h
      simp at h
      cases hg : gen (azureSystemPrompt (azContext (a :: l))) q with
      | error e =>
        rw [hg] at h
        simp at h
      | ok g =>
        rw [hg] at h
        simp at h
        by_cases hex : ∃ x ∈ a :: l, sufficientContent x = true
        · have hcond : sufficientContent a = false → ∃ x ∈ l, sufficientContent x = true := by
            intro ha
            obtain ⟨x, hx, hsx⟩ := hex
            rcases List.mem_cons.mp hx with h1 | h1
            · rw [h1, ha] at hsx
              cases hsx
            · exact ⟨x, h1, hsx⟩
          rw [if_pos hcond] at h
          have hconf : r.confidence = 4/5 := by rw [← h]
          refine ⟨Or.inr (Or.inr hconf), ?_, ?_, ?_, ?_, ?_⟩
          · intro h0
            injection h0 with h1
            exact absurd h1 (List.cons_ne_nil a l)
          · intro docs2 hd2 hne hall
            injection hd2 with hd3
            rw [← hd3] at hall
            obtain ⟨x, hx, hsx⟩ := hex
            have hlong := (sufficient_iff x).mp hsx
            have := hall x hx
            omega
          · intro docs2 hd2 hlong
            exact hconf
          · rw [hconf]; norm_num
          · rw [hconf]; norm_num
        · have hcond2 : ¬(sufficientContent a = false → ∃ x ∈ l, sufficientContent x = true) := by
            intro himp
            cases hsa : sufficientContent a with
            | true => exact hex ⟨a, List.mem_cons_self a l, hsa⟩
            | false =>
              obtain ⟨x, hx, hsx⟩ := himp hsa
              exact hex ⟨x, List.mem_cons_of_mem a hx, hsx⟩
          rw [if_neg hcond2] at h
          have hconf : r.confidence = 2/5 := by rw [← h]
          refine ⟨Or.inr (Or.inl hconf), ?_, ?_, ?_, ?_, ?_⟩
          · intro h0
            injection h0 with h1
            exact absurd h1 (List.cons_ne_nil a l)
          · intro docs2 hd2 hne hall
            exact hconf
          · intro docs2 hd2 hlong
            injection hd2 with hd3
            rw [← hd3] at hlong
            obtain ⟨d, hd, hdl⟩ := hlong
            exact absurd ⟨d, hd, (sufficient_iff d).mpr hdl⟩ hex
          · rw [hconf]; norm_num
          · rw [hconf]; norm_num

/-- C10 witness: the theorem applied to a run with one short-content
document, whose returned confidence is the degraded 0.4. -/
theorem c10_confidence_tiers_witness :
    ((processQuery "q" (Except.ok [⟨"id", "T", "short", "A", "C", "PDF", "d", "s", 0⟩])
        (fun _ _ => Except.ok ⟨"a", 7, "m"⟩)).result
      = Except.ok (⟨"a", [mkAzureSource ⟨"id", "T", "short", "A", "C", "PDF", "d", "s", 0⟩],
          2/5, 7, "m"⟩ : RagResult))
    ∧ ((⟨"a", [mkAzureSource ⟨"id", "T", "short", "A", "C", "PDF", "d", "s", 0⟩],
          2/5, 7, "m"⟩ : RagResult).confidence = 1/10
      ∨ (⟨"a", [mkAzureSource ⟨"id", "T", "short", "A", "C", "PDF", "d", "s", 0⟩],
          2/5, 7, "m"⟩ : RagResult).confidence = 2/5
      ∨ (⟨"a", [mkAzureSource ⟨"id", "T", "short", "A", "C", "PDF", "d", "s", 0⟩],
          2/5, 7, "m"⟩ : RagResult).confidence = 4/5) :=
  ⟨rfl, (c10_confidence_tiers "q"
      (Except.ok [⟨"id", "T", "short", "A", "C", "PDF", "d", "s", 0⟩])
      (fun _ _ => Except.ok ⟨"a", 7, "m"⟩) _ rfl).1⟩
